import Mathlib

/-!
# Verification of the tiptap pagination extension

Shallow embedding of the pagination extension's core modules:

* `src/utils/paper.ts` — paper geometry, page-attribute resolution and
  page-attribute mutation;
* `src/Nodes/Page.ts` — the page node's schema (attributes, HTML parse and
  render rules, node view) and the clipboard-flattening serializer.

Collaborator modules that the two embedded files import (constants, document
traversal helpers, colour validation, unit conversion) are not part of the
embedded sources; where needed they are modelled from the specification's
collaborator contracts and marked `Modelled from the spec:` in their doc
comments.
-/

namespace Pagination

/-! ## Constants

`Modelled from the spec:` the constants modules (`src/constants/*.ts`) are not
among the embedded sources; identifiers and default values below follow the
specification's data model (paper-size identifiers with a fixed system
default, a four-sided default margin configuration, default colour and
orientation strings, a numeric page gap). -/

def PAGE_NODE_NAME : String := "page"

def PAGE_NODE_PAPER_SIZE_ATTR : String := "paperSize"

def PAGE_NODE_PAPER_COLOUR_ATTR : String := "paperColour"

def PAGE_NODE_PAPER_ORIENTATION_ATTR : String := "paperOrientation"

def PAGE_NODE_PAGE_MARGINS_ATTR : String := "pageMargins"

def PAGE_NODE_PAGE_GAP_ATTR : String := "pageGap"

def DEFAULT_PAPER_SIZE : String := "A4"

def DEFAULT_PAPER_COLOUR : String := "#fff"

def DEFAULT_PAPER_ORIENTATION : String := "portrait"

def DEFAULT_PAGE_GAP : Int := 12

/-- A four-sided margin configuration.
`Modelled from the spec:` "a margin configuration object (four-sided)";
the numeric millimetre values are modelled as natural numbers. -/
structure MarginConfig where
  top : Nat
  right : Nat
  bottom : Nat
  left : Nat
deriving DecidableEq, Repr

/-- `Modelled from the spec:` the system default margin configuration. -/
def DEFAULT_MARGIN_CONFIG : MarginConfig := ⟨25, 25, 25, 25⟩

/-! ## Attribute values and nodes

A ProseMirror node attribute value is an arbitrary JSON-like value; the
pagination code stores strings (paper size, colour, orientation), a structured
margin configuration, and a number (page gap). -/

inductive AttrValue : Type where
  | str : String → AttrValue
  | margins : MarginConfig → AttrValue
  | num : Int → AttrValue
  | null : AttrValue
deriving DecidableEq, Repr

/-- A ProseMirror node: a type name, an attribute map and child content.
This models the `PMNode` values the embedded functions receive. -/
inductive PMNode : Type where
  | mk : String → List (String × AttrValue) → List PMNode → PMNode

def PMNode.typeName : PMNode → String
  | .mk t _ _ => t

def PMNode.attrs : PMNode → List (String × AttrValue)
  | .mk _ a _ => a

def PMNode.content : PMNode → List PMNode
  | .mk _ _ c => c

/-- Association-list lookup, modelling JavaScript object indexing
(`attrs[key]`, `paperDimensions[paperSize]`). -/
def alistLookup {β : Type} : List (String × β) → String → Option β
  | [], _ => none
  | (k, v) :: rest, key => if k = key then some v else alistLookup rest key

/-- Replace the value stored under `key` (or append it when absent),
modelling a JavaScript object-property write. -/
def alistSet {β : Type} : List (String × β) → String → β → List (String × β)
  | [], key, v => [(key, v)]
  | (k, w) :: rest, key, v =>
      if k = key then (k, v) :: rest else (k, w) :: alistSet rest key v

/-- List element at an index, modelling `doc.nodeAt(pos)` on the flat
document model used here (a document is its list of top-level nodes and a
position addresses an index). -/
def nth {α : Type} : List α → Nat → Option α
  | [], _ => none
  | x :: _, 0 => some x
  | _ :: xs, Nat.succ i => nth xs i

/-- Apply `f` to the element at index `i`, leaving the rest unchanged. -/
def updateAt {α : Type} : List α → Nat → (α → α) → List α
  | [], _, _ => []
  | x :: xs, 0, f => f x :: xs
  | x :: xs, Nat.succ i, f => x :: updateAt xs i f

/-- `Modelled from the spec:` collaborator "is this node a page node"
(`src/utils/page.ts`): a node is a page node when its type is the page type. -/
def isPageNode (node : PMNode) : Bool :=
  node.typeName == PAGE_NODE_NAME

/-! ## Paper geometry (`src/utils/paper.ts`) -/

structure PaperDimensions where
  width : Int
  height : Int
deriving DecidableEq, Repr

/-- `Modelled from the spec:` the static paper-dimension table
(`src/constants/paper.ts`): a mapping from paper-size identifier to physical
width/height in millimetres, containing the system default identifier. -/
def paperDimensions : List (String × PaperDimensions) :=
  [("A3", ⟨297, 420⟩), ("A4", ⟨210, 297⟩), ("A5", ⟨148, 210⟩),
   ("Letter", ⟨216, 279⟩), ("Legal", ⟨216, 356⟩)]

/-- `isValidPaperSize` (`src/utils/paper.ts`): `paperSize in paperDimensions`. -/
def isValidPaperSize (paperSize : String) : Bool :=
  (alistLookup paperDimensions paperSize).isSome

/-- `getPaperDimensions` (`src/utils/paper.ts`): normalize an invalid size to
the default, then index the table. The table indexing is modelled as an
`Option`-returning lookup so that "never returns undefined" is expressible. -/
def getPaperDimensions (paperSize : String) : Option PaperDimensions :=
  let s := if isValidPaperSize paperSize then paperSize else DEFAULT_PAPER_SIZE
  alistLookup paperDimensions s

/-! ## HTML parse rule for page nodes (`src/Nodes/Page.ts`) -/

def baseElement : String := "div"

def dataPageAttribute : String := "data-page"

/-- An HTML element as seen by the parse rule: its tag name and the names of
the attributes present on it. -/
structure Element where
  tag : String
  attrNames : List String
deriving DecidableEq, Repr

def Element.hasAttribute (e : Element) (a : String) : Bool :=
  e.attrNames.contains a

/-- The page node's HTML parse rule (`parseHTML` in `src/Nodes/Page.ts`):
the rule's tag selector is `div[data-page]` (the element must be a `div`
carrying the page marker attribute), and its `getAttrs` hook rejects the
element (returns `false`) when the parent element also carries the page
marker attribute. `pageParseRuleMatches el parent` is true exactly when the
rule accepts `el` (with `parent` its parent element, if any) as a page node. -/
def pageParseRuleMatches (el : Element) (parent : Option Element) : Bool :=
  el.tag == baseElement && el.hasAttribute dataPageAttribute &&
    match parent with
    | some p => !(p.hasAttribute dataPageAttribute)
    | none => true

/-! ## Page-node attribute getters (`src/utils/paper.ts`) -/

/-- `getPageNodePaperSize`: read the paper-size attribute of a page node
(`attrs[PAGE_NODE_PAPER_SIZE_ATTR]`), `none` when unset or not a string. -/
def getPageNodePaperSize (pageNode : PMNode) : Option String :=
  match alistLookup pageNode.attrs PAGE_NODE_PAPER_SIZE_ATTR with
  | some (.str s) => some s
  | _ => none

/-- `getPageNodePaperColour`: read the paper-colour attribute of a page node,
`none` when unset or not a string. -/
def getPageNodePaperColour (pageNode : PMNode) : Option String :=
  match alistLookup pageNode.attrs PAGE_NODE_PAPER_COLOUR_ATTR with
  | some (.str s) => some s
  | _ => none

/-- `Modelled from the spec:` `getPageNodePaperOrientation`
(`src/utils/paperOrientation.ts`): read the orientation attribute. -/
def getPageNodePaperOrientation (pageNode : PMNode) : Option String :=
  match alistLookup pageNode.attrs PAGE_NODE_PAPER_ORIENTATION_ATTR with
  | some (.str s) => some s
  | _ => none

/-- `Modelled from the spec:` `getPageNodePaperMargins`
(`src/utils/paperMargins.ts`): read the margin-configuration attribute. -/
def getPageNodePaperMargins (pageNode : PMNode) : Option MarginConfig :=
  match alistLookup pageNode.attrs PAGE_NODE_PAGE_MARGINS_ATTR with
  | some (.margins m) => some m
  | _ => none

/-! ## Node view (`addNodeView` in `src/Nodes/Page.ts`) -/

/-- The extension options record (`PageNodeOptions` in `src/Nodes/Page.ts`). -/
structure PageNodeOptions where
  paperSize : String
  paperColour : String
  paperOrientation : String
  pageMargins : String
  pageGap : Int
deriving DecidableEq, Repr

/-- `Modelled from the spec:` collaborator "millimetres → CSS length string"
(`src/utils/units.ts`). -/
def mm (n : Int) : String :=
  toString n ++ "mm"

/-- `Modelled from the spec:` `getPaperDimensions` of `src/utils/paperSize.ts`
(the orientation-aware variant used by the node view): look up the dimensions
for the size (normalizing an invalid size to the default) and swap width and
height when the orientation is landscape, identity otherwise. -/
def getPaperDimensionsOriented (paperSize paperOrientation : String) : PaperDimensions :=
  let d := (getPaperDimensions paperSize).getD ⟨210, 297⟩
  if paperOrientation == "landscape" then ⟨d.height, d.width⟩ else d

/-- `Modelled from the spec:` `calculatePagePadding`
(`src/utils/paperMargins.ts`): render the four margin values as a CSS
padding shorthand. -/
def calculatePagePadding (m : MarginConfig) : String :=
  mm m.top ++ " " ++ mm m.right ++ " " ++ mm m.bottom ++ " " ++ mm m.left

/-- The inline styles the node view sets on the page's outer DOM element. -/
structure PageNodeViewStyle where
  width : String
  height : String
  padding : String
  border : String
  background : String
  overflow : String
  position : String
  marginTop : String
  marginLeft : String
  marginRight : String
deriving DecidableEq, Repr

/-- The styling computed by `addNodeView` in `src/Nodes/Page.ts` for a page
node: effective paper size, orientation, margins and colour are read from the
node (falling back to the defaults), the dimensions come from the oriented
paper-dimension lookup, and the top margin comes from the extension-level
`pageGap` option. -/
def buildPageNodeView (options : PageNodeOptions) (node : PMNode) : PageNodeViewStyle :=
  let paperSize := (getPageNodePaperSize node).getD DEFAULT_PAPER_SIZE
  let paperOrientation := (getPageNodePaperOrientation node).getD DEFAULT_PAPER_ORIENTATION
  let paperMargins := (getPageNodePaperMargins node).getD DEFAULT_MARGIN_CONFIG
  let dims := getPaperDimensionsOriented paperSize paperOrientation
  let paperColour := (getPageNodePaperColour node).getD DEFAULT_PAPER_COLOUR
  { width := mm dims.width
    height := mm dims.height
    padding := calculatePagePadding paperMargins
    border := "1px solid #ccc"
    background := paperColour
    overflow := "hidden"
    position := "relative"
    marginTop := mm options.pageGap
    marginLeft := "auto"
    marginRight := "auto" }

/-- The page node's declared attributes with their defaults (`addAttributes`
in `src/Nodes/Page.ts`): `pageGap` is declared per node with a default even
though the node view only consults the extension option. -/
def defaultPageNodeAttributes : List (String × AttrValue) :=
  [(PAGE_NODE_PAPER_SIZE_ATTR, .str DEFAULT_PAPER_SIZE),
   (PAGE_NODE_PAPER_COLOUR_ATTR, .str DEFAULT_PAPER_COLOUR),
   (PAGE_NODE_PAPER_ORIENTATION_ATTR, .str DEFAULT_PAPER_ORIENTATION),
   (PAGE_NODE_PAGE_MARGINS_ATTR, .margins DEFAULT_MARGIN_CONFIG),
   (PAGE_NODE_PAGE_GAP_ATTR, .num DEFAULT_PAGE_GAP)]

/-! ## Page-attribute mutators (`src/utils/paper.ts`)

A transaction is modelled by its document (the list of top-level nodes);
`dispatch` is modelled by a flag saying whether a dispatch function was
supplied, and each setter reports, besides its boolean result, the
transaction it leaves behind and whether it invoked dispatch. The external
colour validator (`isValidColour`, `src/utils/colour.ts`) is a parameter, so
the theorems hold for every implementation of it. -/

structure Transaction where
  doc : List PMNode

/-- `tr.doc.nodeAt(pagePos)` on the flat document model. -/
def nodeAt (tr : Transaction) (pagePos : Nat) : Option PMNode :=
  nth tr.doc pagePos

/-- `Modelled from the spec:` collaborator `setPageNodeAttribute`
(`src/utils/page.ts`): set attribute `attr` to `value` on the node at
`pagePos` within the transaction. -/
def setPageNodeAttribute (tr : Transaction) (pagePos : Nat) (_pageNode : PMNode)
    (attr : String) (value : AttrValue) : Transaction :=
  ⟨updateAt tr.doc pagePos
    (fun n => PMNode.mk n.typeName (alistSet n.attrs attr value) n.content)⟩

/-- Outcome of one mutator call: the boolean result, the transaction after
the call, and whether dispatch was invoked. -/
structure SetterResult where
  result : Bool
  tr : Transaction
  dispatched : Bool

/-- `setPageNodePosPaperSize` (`src/utils/paper.ts`): guard on a missing
dispatch, an invalid paper size, a non-page node and an already-set value,
each returning `false` with the transaction untouched and no dispatch;
otherwise write the attribute, dispatch, and return `true`. -/
def setPageNodePosPaperSize (tr : Transaction) (dispatch : Bool) (pagePos : Nat)
    (pageNode : PMNode) (paperSize : String) : SetterResult :=
  if !dispatch then ⟨false, tr, false⟩
  else if !isValidPaperSize paperSize then ⟨false, tr, false⟩
  else if !isPageNode pageNode then ⟨false, tr, false⟩
  else if getPageNodePaperSize pageNode == some paperSize then ⟨false, tr, false⟩
  else
    let tr' := setPageNodeAttribute tr pagePos pageNode PAGE_NODE_PAPER_SIZE_ATTR (.str paperSize)
    ⟨true, tr', true⟩

/-- `setPagePaperSize` (`src/utils/paper.ts`): look up the node at the given
position; if none exists, log an error and return `false`, otherwise delegate
to `setPageNodePosPaperSize`. -/
def setPagePaperSize (tr : Transaction) (dispatch : Bool) (pagePos : Nat)
    (paperSize : String) : SetterResult :=
  match nodeAt tr pagePos with
  | none => ⟨false, tr, false⟩
  | some pageNode => setPageNodePosPaperSize tr dispatch pagePos pageNode paperSize

/-- `setPageNodePosPaperColour` (`src/utils/paper.ts`), parameterized by the
external colour validator. Same guard structure as the size setter. -/
def setPageNodePosPaperColour (isValidColour : String → Bool) (tr : Transaction)
    (dispatch : Bool) (pagePos : Nat) (pageNode : PMNode) (paperColour : String) :
    SetterResult :=
  if !dispatch then ⟨false, tr, false⟩
  else if !isValidColour paperColour then ⟨false, tr, false⟩
  else if !isPageNode pageNode then ⟨false, tr, false⟩
  else if getPageNodePaperColour pageNode == some paperColour then ⟨false, tr, false⟩
  else
    let tr' := setPageNodeAttribute tr pagePos pageNode PAGE_NODE_PAPER_COLOUR_ATTR (.str paperColour)
    ⟨true, tr', true⟩

/-! ## Page-attribute resolution (`src/utils/paper.ts`)

The editor state is modelled by its document. The document-traversal
collaborators (`src/utils/page.ts`, `src/utils/pagination.ts`) are modelled
from the specification's contracts: pages are numbered `0..N-1` in document
order, "last page number" is `N-1`, a page number is in range when it lies in
`[0, lastPageNum]`, and each resolver reports the number of warning
diagnostics it emitted alongside its value. -/

structure EditorState where
  doc : List PMNode

/-- `Modelled from the spec:` the page nodes of a document in document order. -/
def pageNodes (doc : List PMNode) : List PMNode :=
  doc.filter isPageNode

/-- `Modelled from the spec:` collaborator "does document contain any page
node" (`src/utils/pagination.ts`). -/
def doesDocHavePageNodes (state : EditorState) : Bool :=
  !(pageNodes state.doc).isEmpty

/-- `Modelled from the spec:` collaborator "get last page index"
(`src/utils/page.ts`): `N - 1` for a document with `N` pages. -/
def getLastPageNum (doc : List PMNode) : Int :=
  (pageNodes doc).length - 1

/-- `Modelled from the spec:` collaborator "is index in range"
(`src/utils/page.ts`): `pageNum ∈ [0, lastPageNum]`. -/
def isPageNumInRange (doc : List PMNode) (pageNum : Int) : Bool :=
  decide (0 ≤ pageNum) && decide (pageNum ≤ getLastPageNum doc)

/-- `Modelled from the spec:` collaborator "get page node by index"
(`src/utils/page.ts`). -/
def getPageNodeByPageNum (doc : List PMNode) (pageNum : Int) : Option PMNode :=
  if pageNum < 0 then none else nth (pageNodes doc) pageNum.toNat

/-- `getPageAttribute` (`src/utils/paper.ts`), with
`handleOutOfRangePageNum` inlined at its single call site (the lambda
`(s, p) => getPageAttribute(s, p, …)` passed to it): return the default when
the document has no page nodes; on an out-of-range page number log one
warning and retry the whole resolution at the last page number; otherwise
look the page node up and return its attribute, or the default when the node
is missing or the attribute unset. The second component counts the warning
diagnostics emitted. -/
def getPageAttribute {T : Type} (state : EditorState) (pageNum : Int)
    (getDefault : Unit → T) (getNodeAttribute : PMNode → Option T) : T × Nat :=
  if _hHas : doesDocHavePageNodes state = false then (getDefault (), 0)
  else if _hRange : isPageNumInRange state.doc pageNum = false then
    let r := getPageAttribute state (getLastPageNum state.doc) getDefault getNodeAttribute
    (r.1, r.2 + 1)
  else
    match getPageNodeByPageNum state.doc pageNum with
    | none => (getDefault (), 0)
    | some pageNode => ((getNodeAttribute pageNode).getD (getDefault ()), 0)
termination_by (if isPageNumInRange state.doc pageNum = false then 1 else 0)
decreasing_by
  rw [if_pos _hRange]
  have hne : pageNodes state.doc ≠ [] := by
    intro h
    apply _hHas
    simp [doesDocHavePageNodes, h]
  have hlen : 1 ≤ (pageNodes state.doc).length := by
    cases hl : pageNodes state.doc with
    | nil => exact absurd hl hne
    | cons a l => simp
  have hr : isPageNumInRange state.doc (getLastPageNum state.doc) = true := by
    simp only [isPageNumInRange, getLastPageNum, Bool.and_eq_true, decide_eq_true_eq]
    omega
  simp [hr]

/-- The editor instance as the resolvers see it: its state and the
current-session default commands (`commands.getDefaultPaperSize` /
`commands.getDefaultPaperColour`, external collaborators). -/
structure Editor where
  state : EditorState
  getDefaultPaperSize : Unit → String
  getDefaultPaperColour : Unit → String

/-- `getPageNumPaperSize` (`src/utils/paper.ts`): session-default variant. -/
def getPageNumPaperSize (editor : Editor) (pageNum : Int) : String × Nat :=
  getPageAttribute editor.state pageNum
    (fun u => editor.getDefaultPaperSize u) getPageNodePaperSize

/-- `getPageNumPaperSizeFromState` (`src/utils/paper.ts`): system-default
variant. -/
def getPageNumPaperSizeFromState (state : EditorState) (pageNum : Int) : String × Nat :=
  getPageAttribute state pageNum (fun _ => DEFAULT_PAPER_SIZE) getPageNodePaperSize

/-- `getPageNumPaperColour` (`src/utils/paper.ts`): session-default variant. -/
def getPageNumPaperColour (editor : Editor) (pageNum : Int) : String × Nat :=
  getPageAttribute editor.state pageNum
    (fun u => editor.getDefaultPaperColour u) getPageNodePaperColour

/-- `getPageNumPaperColourFromState` (`src/utils/paper.ts`): system-default
variant. -/
def getPageNumPaperColourFromState (state : EditorState) (pageNum : Int) : String × Nat :=
  getPageAttribute state pageNum (fun _ => DEFAULT_PAPER_COLOUR) getPageNodePaperColour

/-! ## Margin (de)serialization (`pageMargins` attribute, `src/Nodes/Page.ts`)

`Modelled from the spec:` `JSON.stringify` / `JSON.parse` are host-language
primitives; they are modelled on the margin-object grammar: `stringify`
produces the canonical JSON object text for a four-sided margin
configuration, and `parse` accepts exactly that canonical text, failing on
anything else (in particular on every non-JSON string). A parse failure
models the `SyntaxError` `JSON.parse` throws. -/

/-- The ASCII character of a decimal digit (code point 48 + digit). -/
def digitChar (d : Nat) : Char :=
  Char.ofNat (48 + d % 10)

/-- The numeric value of a decimal-digit character, `none` for any other
character. -/
def digitVal? (c : Char) : Option Nat :=
  if 48 ≤ c.toNat && c.toNat ≤ 57 then some (c.toNat - 48) else none

/-- Decimal digits of a natural number, most significant first. -/
def toDecimalChars (n : Nat) : List Char :=
  if n < 10 then [digitChar n]
  else toDecimalChars (n / 10) ++ [digitChar (n % 10)]
decreasing_by
  exact Nat.div_lt_self (by omega) (by omega)

/-- Consume a run of decimal digits, folding them onto `acc`. -/
def readNat (acc : Nat) : List Char → Nat × List Char
  | [] => (acc, [])
  | c :: rest =>
    match digitVal? c with
    | some d => readNat (acc * 10 + d) rest
    | none => (acc, c :: rest)

/-- Read a decimal number that must start with at least one digit. -/
def readNat? (s : List Char) : Option (Nat × List Char) :=
  match s with
  | c :: rest =>
    match digitVal? c with
    | some d => some (readNat d rest)
    | none => none
  | [] => none

/-- Does the input not start with a decimal digit? (`readNat` stops exactly
on such inputs.) -/
def startsNonDigit (s : List Char) : Bool :=
  match s with
  | [] => true
  | c :: _ => (digitVal? c).isNone

/-- Consume an expected literal from the front of the input. -/
def dropLit : List Char → List Char → Option (List Char)
  | [], s => some s
  | _ :: _, [] => none
  | c :: cs, x :: xs => if x = c then dropLit cs xs else none

def marginLit1 : List Char := ['\x7b', '"', 't', 'o', 'p', '"', ':']

def marginLit2 : List Char := [',', '"', 'r', 'i', 'g', 'h', 't', '"', ':']

def marginLit3 : List Char := [',', '"', 'b', 'o', 't', 't', 'o', 'm', '"', ':']

def marginLit4 : List Char := [',', '"', 'l', 'e', 'f', 't', '"', ':']

def marginLit5 : List Char := ['\x7d']

/-- `JSON.stringify` on a margin configuration (canonical key order, as
produced for the object literal declared in the attribute record). -/
def stringifyMarginChars (m : MarginConfig) : List Char :=
  marginLit1 ++ toDecimalChars m.top ++
  marginLit2 ++ toDecimalChars m.right ++
  marginLit3 ++ toDecimalChars m.bottom ++
  marginLit4 ++ toDecimalChars m.left ++ marginLit5

/-- `JSON.parse` restricted to the canonical margin-object grammar. -/
def parseMarginChars (s : List Char) : Option MarginConfig := do
  let s ← dropLit marginLit1 s
  let (t, s) ← readNat? s
  let s ← dropLit marginLit2 s
  let (r, s) ← readNat? s
  let s ← dropLit marginLit3 s
  let (b, s) ← readNat? s
  let s ← dropLit marginLit4 s
  let (l, s) ← readNat? s
  let s ← dropLit marginLit5 s
  match s with
  | [] => some ⟨t, r, b, l⟩
  | _ :: _ => none

/-- `renderHTML` of the `pageMargins` attribute (`src/Nodes/Page.ts`):
`JSON.stringify(attributes.pageMargins)`. -/
def renderPageMargins (m : MarginConfig) : String :=
  ⟨stringifyMarginChars m⟩

/-- `parseHTML` of the `pageMargins` attribute (`src/Nodes/Page.ts`):
`margins ? JSON.parse(margins) : DEFAULT_MARGIN_CONFIG`. A missing attribute
(`none`) and an empty string are falsy, so they yield the default; any other
string goes through `JSON.parse`, whose failure (the thrown `SyntaxError`)
is modelled by `none`. -/
def parsePageMargins (margins : Option String) : Option MarginConfig :=
  match margins with
  | none => some DEFAULT_MARGIN_CONFIG
  | some s =>
    if s.data.isEmpty then some DEFAULT_MARGIN_CONFIG
    else parseMarginChars s.data

/-! ## Clipboard-flattening serializer (`addProseMirrorPlugins` in
`src/Nodes/Page.ts`)

The base `DOMSerializer` is an external collaborator: its `serializeNode`
returns the serialization of one node (modelled as the node itself — the
claims here only concern which nodes appear in the output and in what order),
and its `serializeFragment` appends each child's serialization to the target
it is given and returns that target. -/

def baseSerializeNode (node : PMNode) : PMNode :=
  node

/-- Base `DOMSerializer.serializeFragment`: serialize every node of the
fragment into the target, in order. -/
def baseSerializeFragment (fragment : List PMNode) (target : List PMNode) : List PMNode :=
  fragment.foldl (fun tgt n => tgt ++ [baseSerializeNode n]) target

/-- The `serializeFragment` override installed by the pagination clipboard
plugin: for a page node, serialize its children into the target via the base
serializer; for any other node, call `serializer.serializeNode(node, options)`
— whose returned DOM node the source never appends to the target — and
return the target at the end. -/
def paginationSerializeFragment (fragment : List PMNode) (target : List PMNode) :
    List PMNode :=
  fragment.foldl
    (fun tgt n =>
      if isPageNode n then
        baseSerializeFragment n.content tgt
      else
        -- the source computes serializer.serializeNode(node, options) here and
        -- discards the result; the target is left as it is
        tgt)
    target

/-- The clipboard serialization as the specification describes it (for the
refinement comparison): a page node contributes the serializations of its
children, any other top-level node contributes its own serialization. -/
def specSerializeFragment (fragment : List PMNode) (target : List PMNode) :
    List PMNode :=
  fragment.foldl
    (fun tgt n =>
      if isPageNode n then tgt ++ n.content.map baseSerializeNode
      else tgt ++ [baseSerializeNode n])
    target

/-! ## Helper lemmas -/

theorem nth_updateAt {α : Type} (l : List α) (i : Nat) (f : α → α) :
    nth (updateAt l i f) i = (nth l i).map f := by
  induction l generalizing i with
  | nil => simp [updateAt, nth]
  | cons x xs ih =>
    cases i with
    | zero => simp [updateAt, nth]
    | succ j => simpa [updateAt, nth] using ih j

theorem alistLookup_alistSet_self {β : Type} (l : List (String × β)) (k : String) (v : β) :
    alistLookup (alistSet l k v) k = some v := by
  induction l with
  | nil => simp [alistSet, alistLookup]
  | cons p rest ih =>
    obtain ⟨k', w⟩ := p
    by_cases h : k' = k
    · simp [alistSet, alistLookup, h]
    · simp [alistSet, alistLookup, h, ih]

theorem alistLookup_alistSet_ne {β : Type} (l : List (String × β)) (k key : String) (v : β)
    (h : k ≠ key) : alistLookup (alistSet l k v) key = alistLookup l key := by
  induction l with
  | nil => simp [alistSet, alistLookup, h]
  | cons p rest ih =>
    obtain ⟨k', w⟩ := p
    by_cases hk : k' = k
    · subst hk
      simp [alistSet, alistLookup, h]
    · simp [alistSet, alistLookup, hk, ih]

theorem setPageNodePosPaperSize_of_eq (tr : Transaction) (d : Bool) (pagePos : Nat)
    (node : PMNode) (v : String) (h : getPageNodePaperSize node = some v) :
    setPageNodePosPaperSize tr d pagePos node v = ⟨false, tr, false⟩ := by
  simp [setPageNodePosPaperSize, h]

theorem setPageNodePosPaperColour_of_eq (vc : String → Bool) (tr : Transaction) (d : Bool)
    (pagePos : Nat) (node : PMNode) (c : String) (h : getPageNodePaperColour node = some c) :
    setPageNodePosPaperColour vc tr d pagePos node c = ⟨false, tr, false⟩ := by
  simp [setPageNodePosPaperColour, h]

theorem getPageAttribute_unfold {T : Type} (state : EditorState) (pageNum : Int)
    (getDefault : Unit → T) (getNodeAttribute : PMNode → Option T) :
    getPageAttribute state pageNum getDefault getNodeAttribute =
      if doesDocHavePageNodes state = false then (getDefault (), 0)
      else if isPageNumInRange state.doc pageNum = false then
        ((getPageAttribute state (getLastPageNum state.doc) getDefault getNodeAttribute).1,
         (getPageAttribute state (getLastPageNum state.doc) getDefault getNodeAttribute).2 + 1)
      else
        match getPageNodeByPageNum state.doc pageNum with
        | none => (getDefault (), 0)
        | some pageNode => ((getNodeAttribute pageNode).getD (getDefault ()), 0) := by
  rw [getPageAttribute]
  by_cases h1 : doesDocHavePageNodes state = false
  · simp [h1]
  · by_cases h2 : isPageNumInRange state.doc pageNum = false
    · simp [h1, h2]
    · simp [h1, h2]

theorem lastPageNum_inRange (state : EditorState)
    (h : doesDocHavePageNodes state = true) :
    isPageNumInRange state.doc (getLastPageNum state.doc) = true := by
  have hne : pageNodes state.doc ≠ [] := by
    intro hnil
    simp [doesDocHavePageNodes, hnil] at h
  have hlen : 1 ≤ (pageNodes state.doc).length := by
    cases hl : pageNodes state.doc with
    | nil => exact absurd hl hne
    | cons a l => simp
  simp only [isPageNumInRange, getLastPageNum, Bool.and_eq_true, decide_eq_true_eq]
  omega

theorem getPageAttribute_snd_of_inRange {T : Type} (state : EditorState) (pageNum : Int)
    (getDefault : Unit → T) (getNodeAttribute : PMNode → Option T)
    (h : isPageNumInRange state.doc pageNum = true) :
    (getPageAttribute state pageNum getDefault getNodeAttribute).2 = 0 := by
  rw [getPageAttribute_unfold]
  by_cases hHas : doesDocHavePageNodes state = false
  · simp [hHas]
  · simp only [hHas, if_false, h]
    cases hm : getPageNodeByPageNum state.doc pageNum <;> simp [hm]

theorem digitVal?_digitChar (d : Nat) (h : d < 10) :
    digitVal? (digitChar d) = some d := by
  interval_cases d <;> rfl

theorem readNat_stop (acc : Nat) (rest : List Char) (h : startsNonDigit rest = true) :
    readNat acc rest = (acc, rest) := by
  cases rest with
  | nil => rfl
  | cons c cs =>
    simp only [startsNonDigit, Option.isNone_iff_eq_none] at h
    simp [readNat, h]

theorem readNat_toDecimalChars (n : Nat) : ∀ (acc : Nat) (rest : List Char),
    readNat acc (toDecimalChars n ++ rest)
      = readNat (acc * 10 ^ (toDecimalChars n).length + n) rest := by
  induction n using Nat.strong_induction_on with
  | _ n ih =>
    intro acc rest
    rw [toDecimalChars]
    by_cases h : n < 10
    · simp only [if_pos h, List.cons_append, List.nil_append, List.length_cons,
        List.length_nil, pow_one, readNat, digitVal?_digitChar n h]
      norm_num
    · have hd : n / 10 < n := Nat.div_lt_self (by omega) (by omega)
      simp only [if_neg h, List.append_assoc, List.cons_append, List.nil_append]
      rw [ih (n / 10) hd acc (digitChar (n % 10) :: rest)]
      simp only [readNat, digitVal?_digitChar (n % 10) (Nat.mod_lt n (by omega))]
      have harith : (acc * 10 ^ (toDecimalChars (n / 10)).length + n / 10) * 10 + n % 10
          = acc * 10 ^ ((toDecimalChars (n / 10)).length + 1) + n := by
        rw [pow_succ]
        have := Nat.div_add_mod n 10
        ring_nf
        omega
      rw [harith]
      congr 1
      simp [List.length_append]

theorem toDecimalChars_head (n : Nat) :
    ∃ d cs, d < 10 ∧ toDecimalChars n = digitChar d :: cs := by
  induction n using Nat.strong_induction_on with
  | _ n ih =>
    rw [toDecimalChars]
    by_cases h : n < 10
    · exact ⟨n, [], h, by simp [h]⟩
    · have hd : n / 10 < n := Nat.div_lt_self (by omega) (by omega)
      obtain ⟨d, cs, hdlt, hEq⟩ := ih (n / 10) hd
      exact ⟨d, cs ++ [digitChar (n % 10)], hdlt, by simp [h, hEq]⟩

theorem readNat?_toDecimalChars (n : Nat) (rest : List Char)
    (h : startsNonDigit rest = true) :
    readNat? (toDecimalChars n ++ rest) = some (n, rest) := by
  obtain ⟨d, cs, hdlt, hEq⟩ := toDecimalChars_head n
  have h1 : readNat 0 (toDecimalChars n ++ rest) = (n, rest) := by
    rw [readNat_toDecimalChars]
    simpa using readNat_stop n rest h
  have h2 : readNat 0 (toDecimalChars n ++ rest) = readNat d (cs ++ rest) := by
    rw [hEq]
    simp [readNat, digitVal?_digitChar d hdlt]
  rw [hEq, List.cons_append]
  simp only [readNat?, digitVal?_digitChar d hdlt]
  exact congrArg some (h2.symm.trans h1)

theorem dropLit_append (lit s : List Char) : dropLit lit (lit ++ s) = some s := by
  induction lit with
  | nil => rfl
  | cons c cs ih => simp [dropLit, ih]

theorem dropLit_refl (lit : List Char) : dropLit lit lit = some [] := by
  have := dropLit_append lit []
  simpa using this

theorem parseMargin_roundtrip (m : MarginConfig) :
    parseMarginChars (stringifyMarginChars m) = some m := by
  have e1 : stringifyMarginChars m
      = marginLit1 ++ (toDecimalChars m.top ++ (marginLit2 ++ (toDecimalChars m.right ++
        (marginLit3 ++ (toDecimalChars m.bottom ++ (marginLit4 ++
        (toDecimalChars m.left ++ marginLit5))))))) := by
    simp [stringifyMarginChars, List.append_assoc]
  have hl2 : ∀ l : List Char, startsNonDigit (marginLit2 ++ l) = true := fun _ => rfl
  have hl3 : ∀ l : List Char, startsNonDigit (marginLit3 ++ l) = true := fun _ => rfl
  have hl4 : ∀ l : List Char, startsNonDigit (marginLit4 ++ l) = true := fun _ => rfl
  have hl5 : startsNonDigit marginLit5 = true := rfl
  rw [e1]
  simp [parseMarginChars, dropLit_append, dropLit_refl, readNat?_toDecimalChars,
    hl2, hl3, hl4, hl5]

/-! ## Claim theorems -/

/-- C1: the clipboard `serializeFragment` override replaces every top-level
page node of the fragment by the serialization of its children, but every
top-level non-page node is dropped from the output — the source computes
`serializer.serializeNode(node, options)` without appending the returned DOM
node to the target. On the fragment of one page node with children `[A, B]`
followed by the non-page node `C`, the override produces `[A, B]`, whereas
the specified serialization (and the override's own comment, "Serialize
non-page nodes directly") requires `[A, B, C]`. -/
theorem clipboard_serializer_drops_nonpage :
    paginationSerializeFragment
      [PMNode.mk PAGE_NODE_NAME []
        [PMNode.mk "paragraph" [("id", .str "A")] [],
         PMNode.mk "paragraph" [("id", .str "B")] []],
       PMNode.mk "paragraph" [("id", .str "C")] []] []
      = [PMNode.mk "paragraph" [("id", .str "A")] [],
         PMNode.mk "paragraph" [("id", .str "B")] []] ∧
    specSerializeFragment
      [PMNode.mk PAGE_NODE_NAME []
        [PMNode.mk "paragraph" [("id", .str "A")] [],
         PMNode.mk "paragraph" [("id", .str "B")] []],
       PMNode.mk "paragraph" [("id", .str "C")] []] []
      = [PMNode.mk "paragraph" [("id", .str "A")] [],
         PMNode.mk "paragraph" [("id", .str "B")] [],
         PMNode.mk "paragraph" [("id", .str "C")] []] :=
  ⟨rfl, rfl⟩

/-- C7: `getPaperDimensions` is total: for every identifier that is a key of
the paper-dimension table it returns exactly that identifier's table entry,
for every other identifier it returns exactly the default identifier's entry,
and it never returns `undefined` (`isSome` always holds). -/
theorem getPaperDimensions_total (s : String) :
    (isValidPaperSize s = true → getPaperDimensions s = alistLookup paperDimensions s) ∧
    (isValidPaperSize s = false →
      getPaperDimensions s = alistLookup paperDimensions DEFAULT_PAPER_SIZE) ∧
    (getPaperDimensions s).isSome = true := by
  refine ⟨fun h => by simp [getPaperDimensions, h],
          fun h => by simp [getPaperDimensions, h], ?_⟩
  by_cases h : isValidPaperSize s
  · have h' := h
    simp only [isValidPaperSize] at h'
    simp [getPaperDimensions, h, h']
  · simp only [Bool.not_eq_true] at h
    simp [getPaperDimensions, h]
    decide

theorem getPaperDimensions_total_witness :
    getPaperDimensions "A4" = alistLookup paperDimensions "A4" ∧
    getPaperDimensions "Bogus" = alistLookup paperDimensions DEFAULT_PAPER_SIZE ∧
    (getPaperDimensions "Bogus").isSome = true :=
  ⟨(getPaperDimensions_total "A4").1 (by decide),
   (getPaperDimensions_total "Bogus").2.1 (by decide),
   (getPaperDimensions_total "Bogus").2.2⟩

/-- C9 counterexample: the claim's "if and only if" fails because the rule's
tag selector is `div[data-page]`: a `span` element carrying the page marker
attribute, with no parent carrying it, satisfies the claim's right-hand side
but is not accepted by the rule. -/
theorem pageParseRule_span_counterexample :
    pageParseRuleMatches ⟨"span", [dataPageAttribute]⟩ none = false ∧
    Element.hasAttribute ⟨"span", [dataPageAttribute]⟩ dataPageAttribute = true := by
  constructor <;> rfl

/-- C9 (amended): the parse rule accepts an element as a page node iff the
element is of the base tag (`div`), carries the page marker attribute, and
its parent element does not carry that attribute; hence in nested page HTML
any element whose parent carries the marker is rejected, and an outer
marker-carrying `div` (with no such parent) is accepted. -/
theorem pageParseRule_characterization :
    (∀ (el : Element) (parent : Option Element),
      pageParseRuleMatches el parent = true ↔
        (el.tag = baseElement ∧ el.hasAttribute dataPageAttribute = true ∧
          ∀ p, parent = some p → p.hasAttribute dataPageAttribute = false)) ∧
    (∀ outer inner : Element, outer.hasAttribute dataPageAttribute = true →
        pageParseRuleMatches inner (some outer) = false) ∧
    (∀ outer : Element, outer.tag = baseElement →
        outer.hasAttribute dataPageAttribute = true →
        pageParseRuleMatches outer none = true) := by
  refine ⟨fun el parent => ?_, fun outer inner h => ?_, fun outer h1 h2 => ?_⟩
  · cases parent with
    | none => simp [pageParseRuleMatches]
    | some p =>
      simp only [pageParseRuleMatches, Bool.and_eq_true, beq_iff_eq, Bool.not_eq_true']
      constructor
      · rintro ⟨⟨ht, ha⟩, hp⟩
        exact ⟨ht, ha, fun q hq => by cases hq; exact hp⟩
      · rintro ⟨ht, ha, hp⟩
        exact ⟨⟨ht, ha⟩, hp p rfl⟩
  · simp [pageParseRuleMatches, h]
  · simp [pageParseRuleMatches, h1, h2]

theorem pageParseRule_characterization_witness :
    pageParseRuleMatches ⟨"div", ["data-page"]⟩ (some ⟨"div", ["data-page"]⟩) = false ∧
    pageParseRuleMatches ⟨"div", ["data-page"]⟩ none = true :=
  ⟨pageParseRule_characterization.2.1 ⟨"div", ["data-page"]⟩ ⟨"div", ["data-page"]⟩ (by decide),
   pageParseRule_characterization.2.2 ⟨"div", ["data-page"]⟩ rfl (by decide)⟩

/-- C10: the node view's styling is computed independently of the per-node
`pageGap` attribute: its top margin is exactly the extension-level `pageGap`
option rendered as a CSS length, two nodes whose attributes differ only in
the `pageGap` attribute get identical styling, and yet `pageGap` is declared
among the node's attributes with a default. -/
theorem nodeView_ignores_pageGap_attr :
    (∀ (options : PageNodeOptions) (node : PMNode),
        (buildPageNodeView options node).marginTop = mm options.pageGap) ∧
    (∀ (options : PageNodeOptions) (t : String) (attrs : List (String × AttrValue))
        (c : List PMNode) (v₁ v₂ : AttrValue),
        buildPageNodeView options (PMNode.mk t (alistSet attrs PAGE_NODE_PAGE_GAP_ATTR v₁) c)
          = buildPageNodeView options
              (PMNode.mk t (alistSet attrs PAGE_NODE_PAGE_GAP_ATTR v₂) c)) ∧
    alistLookup defaultPageNodeAttributes PAGE_NODE_PAGE_GAP_ATTR
      = some (.num DEFAULT_PAGE_GAP) := by
  refine ⟨fun options node => rfl, fun options t attrs c v₁ v₂ => ?_, by decide⟩
  have h1 : ∀ v, alistLookup (alistSet attrs PAGE_NODE_PAGE_GAP_ATTR v)
      PAGE_NODE_PAPER_SIZE_ATTR = alistLookup attrs PAGE_NODE_PAPER_SIZE_ATTR :=
    fun v => alistLookup_alistSet_ne attrs _ _ v (by decide)
  have h2 : ∀ v, alistLookup (alistSet attrs PAGE_NODE_PAGE_GAP_ATTR v)
      PAGE_NODE_PAPER_COLOUR_ATTR = alistLookup attrs PAGE_NODE_PAPER_COLOUR_ATTR :=
    fun v => alistLookup_alistSet_ne attrs _ _ v (by decide)
  have h3 : ∀ v, alistLookup (alistSet attrs PAGE_NODE_PAGE_GAP_ATTR v)
      PAGE_NODE_PAPER_ORIENTATION_ATTR = alistLookup attrs PAGE_NODE_PAPER_ORIENTATION_ATTR :=
    fun v => alistLookup_alistSet_ne attrs _ _ v (by decide)
  have h4 : ∀ v, alistLookup (alistSet attrs PAGE_NODE_PAGE_GAP_ATTR v)
      PAGE_NODE_PAGE_MARGINS_ATTR = alistLookup attrs PAGE_NODE_PAGE_MARGINS_ATTR :=
    fun v => alistLookup_alistSet_ne attrs _ _ v (by decide)
  simp [buildPageNodeView, getPageNodePaperSize, getPageNodePaperColour,
    getPageNodePaperOrientation, getPageNodePaperMargins, PMNode.attrs, h1, h2, h3, h4]

/-- C3: the size and colour setters are idempotent no-ops on an already-set
value — whenever the node's current attribute equals the requested value the
call returns `false`, leaves the transaction unchanged and never dispatches —
and consequently two successive calls with the same valid target value
dispatch on the first call (when the value differs from the node's current
value) and return `false` with no dispatch on the second. -/
theorem setters_idempotent :
    (∀ (tr : Transaction) (d : Bool) (pagePos : Nat) (node : PMNode) (v : String),
        getPageNodePaperSize node = some v →
        setPageNodePosPaperSize tr d pagePos node v = ⟨false, tr, false⟩) ∧
    (∀ (vc : String → Bool) (tr : Transaction) (d : Bool) (pagePos : Nat)
        (node : PMNode) (c : String),
        getPageNodePaperColour node = some c →
        setPageNodePosPaperColour vc tr d pagePos node c = ⟨false, tr, false⟩) ∧
    (∀ (tr : Transaction) (pagePos : Nat) (node : PMNode) (v : String),
        nodeAt tr pagePos = some node →
        isValidPaperSize v = true →
        isPageNode node = true →
        getPageNodePaperSize node ≠ some v →
        (setPageNodePosPaperSize tr true pagePos node v).result = true ∧
        (setPageNodePosPaperSize tr true pagePos node v).dispatched = true ∧
        ∀ node',
          nodeAt (setPageNodePosPaperSize tr true pagePos node v).tr pagePos = some node' →
          setPageNodePosPaperSize (setPageNodePosPaperSize tr true pagePos node v).tr
              true pagePos node' v
            = ⟨false, (setPageNodePosPaperSize tr true pagePos node v).tr, false⟩) ∧
    (∀ (vc : String → Bool) (tr : Transaction) (pagePos : Nat) (node : PMNode) (c : String),
        nodeAt tr pagePos = some node →
        vc c = true →
        isPageNode node = true →
        getPageNodePaperColour node ≠ some c →
        (setPageNodePosPaperColour vc tr true pagePos node c).result = true ∧
        (setPageNodePosPaperColour vc tr true pagePos node c).dispatched = true ∧
        ∀ node',
          nodeAt (setPageNodePosPaperColour vc tr true pagePos node c).tr pagePos
              = some node' →
          setPageNodePosPaperColour vc (setPageNodePosPaperColour vc tr true pagePos node c).tr
              true pagePos node' c
            = ⟨false, (setPageNodePosPaperColour vc tr true pagePos node c).tr, false⟩) := by
  refine ⟨setPageNodePosPaperSize_of_eq, setPageNodePosPaperColour_of_eq,
    fun tr pagePos node v hnode hvalid hpage hne => ?_,
    fun vc tr pagePos node c hnode hvalid hpage hne => ?_⟩
  · have hbeq : (getPageNodePaperSize node == some v) = false := by
      simpa using hne
    have hcall : setPageNodePosPaperSize tr true pagePos node v
        = ⟨true, setPageNodeAttribute tr pagePos node PAGE_NODE_PAPER_SIZE_ATTR (.str v), true⟩ := by
      simp [setPageNodePosPaperSize, hvalid, hpage, hbeq]
    refine ⟨by rw [hcall], by rw [hcall], fun node' hnode' => ?_⟩
    rw [hcall] at hnode' ⊢
    have hup : nodeAt (setPageNodeAttribute tr pagePos node PAGE_NODE_PAPER_SIZE_ATTR (.str v))
        pagePos
        = some (PMNode.mk node.typeName
            (alistSet node.attrs PAGE_NODE_PAPER_SIZE_ATTR (.str v)) node.content) := by
      simp only [setPageNodeAttribute, nodeAt]
      rw [nth_updateAt]
      simp only [nodeAt] at hnode
      rw [hnode]
      rfl
    rw [hup] at hnode'
    cases hnode'
    apply setPageNodePosPaperSize_of_eq
    simp [getPageNodePaperSize, PMNode.attrs, alistLookup_alistSet_self]
  · have hbeq : (getPageNodePaperColour node == some c) = false := by
      simpa using hne
    have hcall : setPageNodePosPaperColour vc tr true pagePos node c
        = ⟨true, setPageNodeAttribute tr pagePos node PAGE_NODE_PAPER_COLOUR_ATTR (.str c), true⟩ := by
      simp [setPageNodePosPaperColour, hvalid, hpage, hbeq]
    refine ⟨by rw [hcall], by rw [hcall], fun node' hnode' => ?_⟩
    rw [hcall] at hnode' ⊢
    have hup : nodeAt (setPageNodeAttribute tr pagePos node PAGE_NODE_PAPER_COLOUR_ATTR (.str c))
        pagePos
        = some (PMNode.mk node.typeName
            (alistSet node.attrs PAGE_NODE_PAPER_COLOUR_ATTR (.str c)) node.content) := by
      simp only [setPageNodeAttribute, nodeAt]
      rw [nth_updateAt]
      simp only [nodeAt] at hnode
      rw [hnode]
      rfl
    rw [hup] at hnode'
    cases hnode'
    apply setPageNodePosPaperColour_of_eq
    simp [getPageNodePaperColour, PMNode.attrs, alistLookup_alistSet_self]

theorem setters_idempotent_witness :
    setPageNodePosPaperSize ⟨[PMNode.mk "page" [("paperSize", .str "A4")] []]⟩ true 0
        (PMNode.mk "page" [("paperSize", .str "A4")] []) "A4"
      = ⟨false, ⟨[PMNode.mk "page" [("paperSize", .str "A4")] []]⟩, false⟩ ∧
    (setPageNodePosPaperSize ⟨[PMNode.mk "page" [("paperSize", .str "A4")] []]⟩ true 0
        (PMNode.mk "page" [("paperSize", .str "A4")] []) "A3").result = true ∧
    (setPageNodePosPaperSize ⟨[PMNode.mk "page" [("paperSize", .str "A4")] []]⟩ true 0
        (PMNode.mk "page" [("paperSize", .str "A4")] []) "A3").dispatched = true ∧
    setPageNodePosPaperSize
        (setPageNodePosPaperSize ⟨[PMNode.mk "page" [("paperSize", .str "A4")] []]⟩ true 0
          (PMNode.mk "page" [("paperSize", .str "A4")] []) "A3").tr
        true 0 (PMNode.mk "page" [("paperSize", .str "A3")] []) "A3"
      = ⟨false,
          (setPageNodePosPaperSize ⟨[PMNode.mk "page" [("paperSize", .str "A4")] []]⟩ true 0
            (PMNode.mk "page" [("paperSize", .str "A4")] []) "A3").tr, false⟩ := by
  have h3 := setters_idempotent.2.2.1
    ⟨[PMNode.mk "page" [("paperSize", .str "A4")] []]⟩ 0
    (PMNode.mk "page" [("paperSize", .str "A4")] []) "A3"
    rfl (by decide) (by decide) (by decide)
  exact ⟨setters_idempotent.1 _ true 0 _ "A4" (by decide),
    h3.1, h3.2.1, h3.2.2 (PMNode.mk "page" [("paperSize", .str "A3")] []) rfl⟩

/-- C4: every failure path of the mutators is atomic and non-throwing (the
embedded functions are total): with no dispatch, an invalid paper size, an
invalid colour (for every colour validator), a non-page target node, or no
node at the given position, each operation returns `false`, leaves the
transaction unchanged and never invokes dispatch. -/
theorem setters_fail_atomically :
    (∀ (tr : Transaction) (pagePos : Nat) (node : PMNode) (v : String),
        setPageNodePosPaperSize tr false pagePos node v = ⟨false, tr, false⟩) ∧
    (∀ (vc : String → Bool) (tr : Transaction) (pagePos : Nat) (node : PMNode) (c : String),
        setPageNodePosPaperColour vc tr false pagePos node c = ⟨false, tr, false⟩) ∧
    (∀ (tr : Transaction) (d : Bool) (pagePos : Nat) (node : PMNode) (v : String),
        isValidPaperSize v = false →
        setPageNodePosPaperSize tr d pagePos node v = ⟨false, tr, false⟩) ∧
    (∀ (vc : String → Bool) (tr : Transaction) (d : Bool) (pagePos : Nat)
        (node : PMNode) (c : String),
        vc c = false →
        setPageNodePosPaperColour vc tr d pagePos node c = ⟨false, tr, false⟩) ∧
    (∀ (tr : Transaction) (d : Bool) (pagePos : Nat) (node : PMNode) (v : String),
        isPageNode node = false →
        setPageNodePosPaperSize tr d pagePos node v = ⟨false, tr, false⟩) ∧
    (∀ (vc : String → Bool) (tr : Transaction) (d : Bool) (pagePos : Nat)
        (node : PMNode) (c : String),
        isPageNode node = false →
        setPageNodePosPaperColour vc tr d pagePos node c = ⟨false, tr, false⟩) ∧
    (∀ (tr : Transaction) (d : Bool) (pagePos : Nat) (v : String),
        nodeAt tr pagePos = none →
        setPagePaperSize tr d pagePos v = ⟨false, tr, false⟩) ∧
    (∀ (tr : Transaction) (pagePos : Nat) (v : String),
        setPagePaperSize tr false pagePos v = ⟨false, tr, false⟩) := by
  have hsize : ∀ (tr : Transaction) (pagePos : Nat) (node : PMNode) (v : String),
      setPageNodePosPaperSize tr false pagePos node v = ⟨false, tr, false⟩ :=
    fun tr pagePos node v => by simp [setPageNodePosPaperSize]
  refine ⟨hsize,
    fun vc tr pagePos node c => by simp [setPageNodePosPaperColour],
    fun tr d pagePos node v h => ?_,
    fun vc tr d pagePos node c h => ?_,
    fun tr d pagePos node v h => ?_,
    fun vc tr d pagePos node c h => ?_,
    fun tr d pagePos v h => by simp [setPagePaperSize, h],
    fun tr pagePos v => ?_⟩
  · cases d
    · simp [setPageNodePosPaperSize]
    · simp [setPageNodePosPaperSize, h]
  · cases d
    · simp [setPageNodePosPaperColour]
    · simp [setPageNodePosPaperColour, h]
  · cases d
    · simp [setPageNodePosPaperSize]
    · simp [setPageNodePosPaperSize, h]
  · cases d
    · simp [setPageNodePosPaperColour]
    · simp [setPageNodePosPaperColour, h]
  · unfold setPagePaperSize
    cases hm : nodeAt tr pagePos with
    | none => rfl
    | some node => exact hsize tr pagePos node v

theorem setters_fail_atomically_witness :
    setPageNodePosPaperSize ⟨[]⟩ true 0 (PMNode.mk "page" [] []) "Bogus"
      = ⟨false, ⟨[]⟩, false⟩ ∧
    setPageNodePosPaperColour (fun _ => false) ⟨[]⟩ true 0 (PMNode.mk "page" [] []) "red"
      = ⟨false, ⟨[]⟩, false⟩ ∧
    setPageNodePosPaperSize ⟨[]⟩ true 0 (PMNode.mk "paragraph" [] []) "A4"
      = ⟨false, ⟨[]⟩, false⟩ ∧
    setPageNodePosPaperColour (fun _ => true) ⟨[]⟩ true 0 (PMNode.mk "paragraph" [] []) "red"
      = ⟨false, ⟨[]⟩, false⟩ ∧
    setPagePaperSize ⟨[]⟩ true 0 "A4" = ⟨false, ⟨[]⟩, false⟩ :=
  ⟨setters_fail_atomically.2.2.1 ⟨[]⟩ true 0 (PMNode.mk "page" [] []) "Bogus" (by decide),
   setters_fail_atomically.2.2.2.1 (fun _ => false) ⟨[]⟩ true 0 (PMNode.mk "page" [] []) "red" rfl,
   setters_fail_atomically.2.2.2.2.1 ⟨[]⟩ true 0 (PMNode.mk "paragraph" [] []) "A4" (by decide),
   setters_fail_atomically.2.2.2.2.2.1 (fun _ => true) ⟨[]⟩ true 0
     (PMNode.mk "paragraph" [] []) "red" (by decide),
   setters_fail_atomically.2.2.2.2.2.2.1 ⟨[]⟩ true 0 "A4" rfl⟩

/-- C5: for a document with at least one page node and an out-of-range page
number, `getPageAttribute` returns the value obtained by resolving the
attribute for the last page number (`N - 1`) and emits exactly one warning
diagnostic (the retried resolution at the last page number itself emits
none); the four public resolvers built on it behave the same way. -/
theorem getPageAttribute_out_of_range :
    (∀ (T : Type) (state : EditorState) (pageNum : Int) (d : Unit → T)
        (a : PMNode → Option T),
        doesDocHavePageNodes state = true →
        isPageNumInRange state.doc pageNum = false →
        getPageAttribute state pageNum d a
          = ((getPageAttribute state (getLastPageNum state.doc) d a).1, 1)) ∧
    (∀ (T : Type) (state : EditorState) (d : Unit → T) (a : PMNode → Option T),
        doesDocHavePageNodes state = true →
        (getPageAttribute state (getLastPageNum state.doc) d a).2 = 0) ∧
    (∀ (editor : Editor) (pageNum : Int),
        doesDocHavePageNodes editor.state = true →
        isPageNumInRange editor.state.doc pageNum = false →
        getPageNumPaperSize editor pageNum
          = ((getPageNumPaperSize editor (getLastPageNum editor.state.doc)).1, 1)) ∧
    (∀ (state : EditorState) (pageNum : Int),
        doesDocHavePageNodes state = true →
        isPageNumInRange state.doc pageNum = false →
        getPageNumPaperSizeFromState state pageNum
          = ((getPageNumPaperSizeFromState state (getLastPageNum state.doc)).1, 1)) ∧
    (∀ (editor : Editor) (pageNum : Int),
        doesDocHavePageNodes editor.state = true →
        isPageNumInRange editor.state.doc pageNum = false →
        getPageNumPaperColour editor pageNum
          = ((getPageNumPaperColour editor (getLastPageNum editor.state.doc)).1, 1)) ∧
    (∀ (state : EditorState) (pageNum : Int),
        doesDocHavePageNodes state = true →
        isPageNumInRange state.doc pageNum = false →
        getPageNumPaperColourFromState state pageNum
          = ((getPageNumPaperColourFromState state (getLastPageNum state.doc)).1, 1)) := by
  have hmain : ∀ (T : Type) (state : EditorState) (pageNum : Int) (d : Unit → T)
      (a : PMNode → Option T),
      doesDocHavePageNodes state = true →
      isPageNumInRange state.doc pageNum = false →
      getPageAttribute state pageNum d a
        = ((getPageAttribute state (getLastPageNum state.doc) d a).1, 1) := by
    intro T state pageNum d a hHas hR
    rw [getPageAttribute_unfold]
    rw [if_neg (by simp [hHas]), if_pos hR]
    rw [getPageAttribute_snd_of_inRange state (getLastPageNum state.doc) d a
      (lastPageNum_inRange state hHas)]
  exact ⟨hmain,
    fun T state d a hHas =>
      getPageAttribute_snd_of_inRange state _ d a (lastPageNum_inRange state hHas),
    fun editor pageNum hHas hR => hmain String editor.state pageNum _ _ hHas hR,
    fun state pageNum hHas hR => hmain String state pageNum _ _ hHas hR,
    fun editor pageNum hHas hR => hmain String editor.state pageNum _ _ hHas hR,
    fun state pageNum hHas hR => hmain String state pageNum _ _ hHas hR⟩

theorem getPageAttribute_out_of_range_witness :
    getPageNumPaperSizeFromState
        (EditorState.mk [PMNode.mk "page" [] [], PMNode.mk "page" [] []]) 5
      = ((getPageNumPaperSizeFromState
            (EditorState.mk [PMNode.mk "page" [] [], PMNode.mk "page" [] []])
            (getLastPageNum
              (EditorState.mk [PMNode.mk "page" [] [], PMNode.mk "page" [] []]).doc)).1, 1) :=
  getPageAttribute_out_of_range.2.2.2.1
    (EditorState.mk [PMNode.mk "page" [] [], PMNode.mk "page" [] []]) 5 rfl rfl

/-- C6: the out-of-range retry in `getPageAttribute` is bounded to one retry
level — every evaluation emits at most one warning (hence at most one retry;
the function is total by construction, via the well-founded recursion on the
in-range measure), the retried page number (the document's last page number)
is always in range when the document has pages, and every invocation —
including the retried one — re-checks the pageless-document condition first
and returns the default with no diagnostic on a pageless document. -/
theorem getPageAttribute_retry_bounded :
    (∀ (T : Type) (state : EditorState) (pageNum : Int) (d : Unit → T)
        (a : PMNode → Option T),
        (getPageAttribute state pageNum d a).2 ≤ 1) ∧
    (∀ (state : EditorState) (pageNum : Int),
        doesDocHavePageNodes state = true →
        isPageNumInRange state.doc pageNum = false →
        isPageNumInRange state.doc (getLastPageNum state.doc) = true) ∧
    (∀ (T : Type) (state : EditorState) (pageNum : Int) (d : Unit → T)
        (a : PMNode → Option T),
        doesDocHavePageNodes state = false →
        getPageAttribute state pageNum d a = (d (), 0)) := by
  refine ⟨fun T state pageNum d a => ?_,
    fun state pageNum hHas _ => lastPageNum_inRange state hHas,
    fun T state pageNum d a h => by rw [getPageAttribute_unfold, if_pos h]⟩
  by_cases hHas : doesDocHavePageNodes state = false
  · rw [getPageAttribute_unfold, if_pos hHas]
    simp
  · have hHas' : doesDocHavePageNodes state = true := by simpa using hHas
    by_cases hR : isPageNumInRange state.doc pageNum = false
    · rw [getPageAttribute_unfold, if_neg (by simp [hHas']), if_pos hR]
      rw [getPageAttribute_snd_of_inRange state (getLastPageNum state.doc) d a
        (lastPageNum_inRange state hHas')]
    · have hR' : isPageNumInRange state.doc pageNum = true := by simpa using hR
      have h0 := getPageAttribute_snd_of_inRange state pageNum d a hR'
      omega

theorem getPageAttribute_retry_bounded_witness :
    isPageNumInRange
        (EditorState.mk [PMNode.mk "page" [] [], PMNode.mk "page" [] []]).doc
        (getLastPageNum
          (EditorState.mk [PMNode.mk "page" [] [], PMNode.mk "page" [] []]).doc) = true ∧
    getPageAttribute (EditorState.mk [PMNode.mk "paragraph" [] []]) 3
        (fun _ => DEFAULT_PAPER_SIZE) getPageNodePaperSize = (DEFAULT_PAPER_SIZE, 0) :=
  ⟨getPageAttribute_retry_bounded.2.1
      (EditorState.mk [PMNode.mk "page" [] [], PMNode.mk "page" [] []]) 7 rfl rfl,
   getPageAttribute_retry_bounded.2.2 String
      (EditorState.mk [PMNode.mk "paragraph" [] []]) 3
      (fun _ => DEFAULT_PAPER_SIZE) getPageNodePaperSize rfl⟩

/-- C8: on a document with zero page nodes, `getPageAttribute` (and every
public resolver built on it) returns the supplied default provider's value
for every page number and emits no diagnostic; the result is independent of
the page number and of the node-attribute accessor, so no range check, retry
or page-node lookup can have influenced it. -/
theorem getPageAttribute_pageless_default :
    (∀ (T : Type) (state : EditorState) (pageNum : Int) (d : Unit → T)
        (a : PMNode → Option T),
        doesDocHavePageNodes state = false →
        getPageAttribute state pageNum d a = (d (), 0)) ∧
    (∀ (editor : Editor) (pageNum : Int),
        doesDocHavePageNodes editor.state = false →
        getPageNumPaperSize editor pageNum = (editor.getDefaultPaperSize (), 0)) ∧
    (∀ (state : EditorState) (pageNum : Int),
        doesDocHavePageNodes state = false →
        getPageNumPaperSizeFromState state pageNum = (DEFAULT_PAPER_SIZE, 0)) ∧
    (∀ (editor : Editor) (pageNum : Int),
        doesDocHavePageNodes editor.state = false →
        getPageNumPaperColour editor pageNum = (editor.getDefaultPaperColour (), 0)) ∧
    (∀ (state : EditorState) (pageNum : Int),
        doesDocHavePageNodes state = false →
        getPageNumPaperColourFromState state pageNum = (DEFAULT_PAPER_COLOUR, 0)) := by
  have hmain : ∀ (T : Type) (state : EditorState) (pageNum : Int) (d : Unit → T)
      (a : PMNode → Option T),
      doesDocHavePageNodes state = false →
      getPageAttribute state pageNum d a = (d (), 0) := by
    intro T state pageNum d a h
    rw [getPageAttribute_unfold, if_pos h]
  exact ⟨hmain, fun e p h => hmain String e.state p _ _ h,
    fun s p h => hmain String s p _ _ h,
    fun e p h => hmain String e.state p _ _ h,
    fun s p h => hmain String s p _ _ h⟩

theorem getPageAttribute_pageless_default_witness :
    getPageNumPaperSizeFromState (EditorState.mk [PMNode.mk "paragraph" [] []]) 42
      = (DEFAULT_PAPER_SIZE, 0) ∧
    getPageAttribute (EditorState.mk []) (-3) (fun _ => DEFAULT_PAPER_COLOUR)
        getPageNodePaperColour = (DEFAULT_PAPER_COLOUR, 0) :=
  ⟨getPageAttribute_pageless_default.2.2.1 (EditorState.mk [PMNode.mk "paragraph" [] []]) 42 rfl,
   getPageAttribute_pageless_default.1 String (EditorState.mk []) (-3)
     (fun _ => DEFAULT_PAPER_COLOUR) getPageNodePaperColour rfl⟩

/-- C2 counterexample: parsing a malformed (non-JSON) persisted margin value
does not return the default margin configuration — `JSON.parse` throws
(modelled by `none`): the claim's "malformed … returns the default margin
configuration without raising any exception" is false at the input
`"oops"`. -/
theorem pageMargins_malformed_counterexample :
    parsePageMargins (some "oops") = none := by decide

/-- C2 (amended): parsing a missing or empty serialized margin value returns
the default margin configuration, and for every valid margin object the
serialize/parse round-trip holds (`parse (render x) = x`); but a malformed
(non-JSON) serialized value makes the parse hook propagate the `JSON.parse`
exception (modelled by `none`) instead of returning the default. -/
theorem pageMargins_parse_spec :
    parsePageMargins none = some DEFAULT_MARGIN_CONFIG ∧
    parsePageMargins (some "") = some DEFAULT_MARGIN_CONFIG ∧
    (∀ m : MarginConfig, parsePageMargins (some (renderPageMargins m)) = some m) ∧
    (∀ s : String, s.data ≠ [] → parseMarginChars s.data = none →
        parsePageMargins (some s) = none) := by
  refine ⟨rfl, by decide, fun m => ?_, fun s h1 h2 => ?_⟩
  · have hdata : (renderPageMargins m).data = stringifyMarginChars m := rfl
    show (if (renderPageMargins m).data.isEmpty = true then some DEFAULT_MARGIN_CONFIG
        else parseMarginChars (renderPageMargins m).data) = some m
    rw [hdata]
    have hne : (stringifyMarginChars m).isEmpty = false := by
      simp [stringifyMarginChars, marginLit1]
    rw [if_neg (by simp [hne])]
    exact parseMargin_roundtrip m
  · show (if s.data.isEmpty = true then some DEFAULT_MARGIN_CONFIG
        else parseMarginChars s.data) = none
    cases hd : s.data with
    | nil => exact absurd hd h1
    | cons c cs =>
      rw [hd] at h2
      simpa using h2

theorem pageMargins_parse_spec_witness :
    parsePageMargins (some (renderPageMargins ⟨10, 20, 30, 40⟩))
      = some (⟨10, 20, 30, 40⟩ : MarginConfig) ∧
    parsePageMargins (some "garbled") = none :=
  ⟨pageMargins_parse_spec.2.2.1 ⟨10, 20, 30, 40⟩,
   pageMargins_parse_spec.2.2.2 "garbled" (by decide) (by decide)⟩

end Pagination
